import Mathlib

/-!
Verification of the mask-plane decoder of the unagi repository
(src/unagi/mask.py) against its specification.

The embedding models the two classes `BitMasks` and `Mask`.  A numpy 2-D
array of unsigned integers is a `List (List Nat)`; `astype(np.uintN)` is
reduction modulo 2 ^ N; numpy elementwise `&`, `|`, `>` become `Nat.land`,
`Nat.lor` and comparisons mapped over the nested lists.  Python exceptions
become the `Except` monad over `MaskError`:
  - `unsupportedRelease` is the NotImplementedError raised by
    `BitMasks.__init__` for a release other than s18a and pdr1;
  - `unknownPlane` is the IndexError raised by
    `np.where(flag)[0][0]` in `BitMasks.get_index` when no entry matches
    (the spec calls it UnknownPlaneError);
  - `invalidArgument` is the TypeError raised explicitly by `Mask.combine`
    for a non-list argument (the spec calls it InvalidArgumentError);
  - `ufuncTypeError` is the TypeError raised by `np.bitwise_or.reduce`
    on an empty list: numpy turns `[]` into an empty float64 array and
    bitwise_or has no loop for floats;
  - `axisError` is the numpy AxisError raised by `np.delete` (and by
    `np.bitwise_or.reduce`) when the requested axis is out of bounds for
    the array, as happens in `Mask.clean`, which addresses axis 2 of the
    2-D `masks` array.
-/

/-- Errors of the mask module, one constructor per distinct Python
exception site relevant to the component. -/
inductive MaskError where
  | unsupportedRelease
  | unknownPlane
  | invalidArgument
  | ufuncTypeError
  | axisError
deriving DecidableEq, Repr

/-- One row of the structured arrays S18A_BITMASKS and PDR1_BITMASKS:
dtype [(bits, uint8), (name, U18), (meaning, U80), (color, U12),
(value, uint32)]. -/
structure BitmaskEntry where
  bits : Nat
  name : String
  meaning : String
  color : String
  value : Nat
deriving DecidableEq, Repr, Inhabited

/-- 2-D grid of unsigned pixel integers (a numpy 2-D array). -/
abbrev Grid := List (List Nat)

/-- Module constant S18A_BITMASKS from src/unagi/mask.py. -/
def S18A_BITMASKS : List BitmaskEntry :=
  [ ⟨0, "BAD", "Bad pixel", "red", 2 ^ 0⟩,
    ⟨1, "SAT", "Source footprint includes saturated pixels", "tab:purple", 2 ^ 1⟩,
    ⟨2, "INTRP", "Source footprint includes interpolated pixels", "tab:orange", 2 ^ 2⟩,
    ⟨3, "CR", "Source footprint includes suspected CR pixels", "tab:pink", 2 ^ 3⟩,
    ⟨4, "EDGE", "Source is close to the edge of the CCD", "tab:olive", 2 ^ 4⟩,
    ⟨5, "DETECTED", "Pixel with detection above the threshold", "tab:blue", 2 ^ 5⟩,
    ⟨6, "DETECTED_NEGATIVE", "Pixel in footprint that is detected as a negative object",
      "gray", 2 ^ 6⟩,
    ⟨7, "SUSPECT", "Source footprint includes suspect pixels", "orangered", 2 ^ 7⟩,
    ⟨8, "NO_DATA", "No useful data", "black", 2 ^ 8⟩,
    ⟨9, "BRIGHT_OBJECT", "Bright star mask", "tab:brown", 2 ^ 9⟩,
    ⟨10, "CROSSTALK", "Crosstalk", "rosybrown", 2 ^ 10⟩,
    ⟨11, "NOT_DEBLENDED", "Pixel in footprint that is too large to deblend", "teal", 2 ^ 11⟩,
    ⟨12, "UNMASKEDNAN", "NaN pixels that are interpolated over", "darkgreen", 2 ^ 12⟩,
    ⟨13, "REJECTED", "Rejected due to a mask other than EDGE, NO_DATA, or CLIPPED",
      "violet", 2 ^ 13⟩,
    ⟨14, "CLIPPED", "Pixel that has been clipped", "crimson", 2 ^ 14⟩,
    ⟨15, "SENSOR_EDGE", "Pixel close to the edge of CCD sensor", "tab:olive", 2 ^ 15⟩,
    ⟨16, "INEXACT_PSF", "PSF is not correct", "gold", 2 ^ 16⟩ ]

/-- Module constant PDR1_BITMASKS from src/unagi/mask.py. -/
def PDR1_BITMASKS : List BitmaskEntry :=
  [ ⟨0, "BAD", "Bad pixel", "red", 2 ^ 0⟩,
    ⟨1, "SAT", "Source footprint includes saturated pixels", "tab:purple", 2 ^ 1⟩,
    ⟨2, "INTRP", "Source footprint includes interpolated pixels", "tab:orange", 2 ^ 2⟩,
    ⟨3, "CR", "Source footprint includes suspected CR pixels", "tab:pink", 2 ^ 3⟩,
    ⟨4, "EDGE", "Source is close to the edge of the CCD", "tab:olive", 2 ^ 4⟩,
    ⟨5, "DETECTED", "Pixel with detection above the threshold", "tab:blue", 2 ^ 5⟩,
    ⟨6, "DETECTED_NEGATIVE", "Pixel in footprint that is detected as a negative object",
      "gray", 2 ^ 6⟩,
    ⟨7, "SUSPECT", "Source footprint includes suspect pixels", "orangered", 2 ^ 7⟩,
    ⟨8, "NO_DATA", "No useful data", "black", 2 ^ 8⟩,
    ⟨9, "BRIGHT_OBJECT", "Bright star mask", "tab:brown", 2 ^ 9⟩,
    ⟨10, "CROSSTALK", "Crosstalk", "rosybrown", 2 ^ 10⟩,
    ⟨11, "NOT_DEBLENDED", "Pixel in footprint that is too large to deblend", "teal", 2 ^ 11⟩,
    ⟨12, "UNMASKEDNAN", "NaN pixels that are interpolated over", "darkgreen", 2 ^ 12⟩,
    ⟨13, "REJECTED", "Rejected due to a mask other than EDGE, NO_DATA, or CLIPPED",
      "violet", 2 ^ 13⟩ ]

/-- Selector for a mask plane: the Python code branches on
`isinstance(name_or_bit, str)`, so a selector is either a name string or a
bit index. -/
inductive Selector where
  | name (s : String)
  | bit (b : Nat)
deriving DecidableEq, Repr

/-- The argument of `Mask.combine` and `Mask.clean`: the code branches on
`isinstance(arg, list)`, so it is either a single selector or a list. -/
inductive CombineArg where
  | single (s : Selector)
  | list (l : List Selector)
deriving DecidableEq, Repr

/-- Python `str.strip()`: drop whitespace from both ends (written over the
character list so that it evaluates inside the kernel). -/
def py_strip (s : String) : String :=
  ⟨((s.data.dropWhile Char.isWhitespace).reverse.dropWhile Char.isWhitespace).reverse⟩

/-- Python `str.upper()` on the ASCII plane names. -/
def py_upper (s : String) : String := ⟨s.data.map Char.toUpper⟩

/-- Whether one table row matches a selector: for a string, the code
compares `bitmasks[name] == name_or_bit.strip().upper()`; otherwise it
compares `bitmasks[bits] == name_or_bit`. -/
def selectorMatches (sel : Selector) (e : BitmaskEntry) : Bool :=
  match sel with
  | .name s => e.name == py_upper (py_strip s)
  | .bit b => e.bits == b

/-- Index of the first element satisfying `p`, i.e. `np.where(flag)[0][0]`;
`none` models the IndexError raised when no element matches. -/
def np_where_first (p : α → Bool) : List α → Option Nat
  | [] => none
  | a :: as => if p a then some 0 else (np_where_first p as).map (· + 1)

/-- Class `BitMasks`: the table of the chosen release plus the packed
integer width (`n_bits`; field `type` of the Python object is the numpy
dtype `np.uintN` with that same width `N`). -/
structure BitMasks where
  bitmasks : List BitmaskEntry
  n_bits : Nat
deriving DecidableEq, Repr

/-- `BitMasks.__init__(data_release)`: s18a selects S18A_BITMASKS with
uint32, pdr1 selects PDR1_BITMASKS with uint16, anything else raises
(NotImplementedError in the code, UnsupportedReleaseError in the spec). -/
def BitMasks.init (data_release : String) : Except MaskError BitMasks :=
  if data_release == "s18a" then .ok ⟨S18A_BITMASKS, 32⟩
  else if data_release == "pdr1" then .ok ⟨PDR1_BITMASKS, 16⟩
  else .error .unsupportedRelease

/-- `BitMasks.n_mask`. -/
def BitMasks.n_mask (bm : BitMasks) : Nat := bm.bitmasks.length

/-- `BitMasks.get_index(name_or_bit)`: position of the matching entry via
`np.where(flag)[0][0]`; fails with `unknownPlane` when no entry matches. -/
def BitMasks.get_index (bm : BitMasks) (name_or_bit : Selector) : Except MaskError Nat :=
  match np_where_first (selectorMatches name_or_bit) bm.bitmasks with
  | some i => .ok i
  | none => .error .unknownPlane

/-- `BitMasks.get_color(name_or_bit)`. -/
def BitMasks.get_color (bm : BitMasks) (name_or_bit : Selector) : Except MaskError String := do
  let idx ← bm.get_index name_or_bit
  pure (bm.bitmasks.getD idx default).color

/-- Class `Mask`: a bitmask grid plus the `BitMasks` table of its release.
`__init__` stores `mask.astype(self.bitmasks.type)`, i.e. every pixel
reduced modulo 2 ^ n_bits; the wcs and verbose arguments play no role in
the decoding logic and are omitted. -/
structure Mask where
  data_release : String
  bitmasks : BitMasks
  masks : Grid
deriving DecidableEq, Repr

/-- `Mask.__init__(mask, data_release)`. -/
def Mask.init (mask : Grid) (data_release : String) : Except MaskError Mask := do
  let bm ← BitMasks.init data_release
  pure ⟨data_release, bm, mask.map (fun row => row.map (fun x => x % 2 ^ bm.n_bits))⟩

/-- `self.library`, an alias of the release table. -/
def Mask.library (m : Mask) : List BitmaskEntry := m.bitmasks.bitmasks

/-- `Mask.extract(bit_list, show)` for a non-list argument: with
`show=True` it returns `masks & value` pixelwise; otherwise
`(masks & value > 0).astype(np.uint8)`, a 0/1 grid. -/
def Mask.extract (m : Mask) (bit_list : Selector) (shw : Bool) : Except MaskError Grid := do
  let idx ← m.bitmasks.get_index bit_list
  let v := (m.library.getD idx default).value
  if shw then
    pure (m.masks.map (fun row => row.map (fun x => x &&& v)))
  else
    pure (m.masks.map (fun row => row.map (fun x => if x &&& v > 0 then 1 else 0)))

/-- A Python list comprehension over a fallible function: elements are
computed left to right and the first exception propagates. -/
def mapExcept (f : α → Except MaskError β) : List α → Except MaskError (List β)
  | [] => .ok []
  | a :: as => do
    let b ← f a
    let bs ← mapExcept f as
    pure (b :: bs)

/-- `Mask.extract` for a list argument: the list of per-selector grids. -/
def Mask.extractL (m : Mask) (bit_list : List Selector) (shw : Bool) :
    Except MaskError (List Grid) :=
  mapExcept (fun b => m.extract b shw) bit_list

/-- Elementwise bitwise or of two grids of equal shape. -/
def grid_or (a b : Grid) : Grid :=
  List.zipWith (fun r s => List.zipWith (fun x y => x ||| y) r s) a b

/-- `np.bitwise_or.reduce` over a list of equally shaped integer grids.
On the empty list numpy first builds an empty float64 array and then
fails, because bitwise_or has no loop for floats: a TypeError. -/
def np_bitwise_or_reduce_list : List Grid → Except MaskError Grid
  | [] => .error .ufuncTypeError
  | g :: gs => .ok (gs.foldl grid_or g)

/-- `Mask.combine(name_or_bit_list)`: raises TypeError for a non-list
argument before touching any plane; a one-element list returns that
plane's non-raw extraction; otherwise the bitwise or reduction of the
non-raw extractions. -/
def Mask.combine (m : Mask) (name_or_bit_list : CombineArg) : Except MaskError Grid :=
  match name_or_bit_list with
  | .single _ => .error .invalidArgument
  | .list [nb] => m.extract nb false
  | .list l => do
    let gs ← mapExcept (fun nb => m.extract nb false) l
    np_bitwise_or_reduce_list gs

/-- Elements of `l` with the positions in `idxs` removed
(`np.delete` along an existing axis). -/
def removeIdxs (l : List α) (idxs : List Nat) : List α :=
  (l.enum.filter (fun p => !(idxs.contains p.1))).map (fun p => p.2)

/-- `np.delete(g, idxs, axis)` on a 2-D array: its axes are 0 and 1, any
other axis raises numpy AxisError. -/
def np_delete_axis (g : Grid) (idxs : List Nat) (axis : Nat) : Except MaskError Grid :=
  if axis == 0 then .ok (removeIdxs g idxs)
  else if axis == 1 then .ok (g.map (fun row => removeIdxs row idxs))
  else .error .axisError

/-- `np.bitwise_or.reduce(g, axis)` on a 2-D array: axis 0 folds the rows
together, axis 1 folds within each row, any other axis raises numpy
AxisError. -/
def np_or_reduce_axis (g : Grid) (axis : Nat) : Except MaskError (List Nat) :=
  if axis == 0 then
    .ok (match g with
      | [] => []
      | r :: rs => rs.foldl (fun a b => List.zipWith (fun x y => x ||| y) a b) r)
  else if axis == 1 then .ok (g.map (fun row => row.foldl (fun x y => x ||| y) 0))
  else .error .axisError

/-- `Mask.clean(name_or_bit_list)`: resolves the listed planes to indices,
then runs `np.delete(self.masks, indices, axis=2)` followed by
`np.bitwise_or.reduce(..., axis=2)`.  The stored `masks` array is the 2-D
grid cast by `__init__`, so axis 2 is out of bounds.  Python evaluates the
`get_index` calls (arguments) before `np.delete` runs, so an unknown plane
fails first. -/
def Mask.clean (m : Mask) (name_or_bit_list : CombineArg) :
    Except MaskError (List Nat) :=
  match name_or_bit_list with
  | .single sel => do
    let idx ← m.bitmasks.get_index sel
    let d ← np_delete_axis m.masks [idx] 2
    np_or_reduce_axis d 2
  | .list l => do
    let idxs ← mapExcept m.bitmasks.get_index l
    let d ← np_delete_axis m.masks idxs 2
    np_or_reduce_axis d 2

/-! Helper lemmas about the lookup primitive and construction. -/

theorem np_where_first_eq_none {p : α → Bool} :
    ∀ {l : List α}, (∀ a ∈ l, p a = false) → np_where_first p l = none := by
  intro l
  induction l with
  | nil => intro _; rfl
  | cons a as ih =>
    intro h
    have ha : p a = false := h a (List.mem_cons_self a as)
    have has : ∀ b ∈ as, p b = false := fun b hb => h b (List.mem_cons_of_mem a hb)
    simp [np_where_first, ha, ih has]

theorem np_where_first_lt {p : α → Bool} :
    ∀ {l : List α} {i : Nat}, np_where_first p l = some i → i < l.length := by
  intro l
  induction l with
  | nil => intro i h; simp [np_where_first] at h
  | cons a as ih =>
    intro i h
    by_cases hp : p a
    · simp [np_where_first, hp] at h
      simp [List.length_cons]
      omega
    · simp [np_where_first, hp] at h
      obtain ⟨j, hj, hji⟩ := h
      have := ih hj
      simp [List.length_cons]
      omega

theorem np_where_first_getD {p : α → Bool} (d : α) :
    ∀ {l : List α} {i : Nat}, np_where_first p l = some i → p (l.getD i d) = true := by
  intro l
  induction l with
  | nil => intro i h; simp [np_where_first] at h
  | cons a as ih =>
    intro i h
    by_cases hp : p a
    · simp [np_where_first, hp] at h
      subst h
      simpa using hp
    · simp [np_where_first, hp] at h
      obtain ⟨j, hj, hji⟩ := h
      subst hji
      simpa using ih hj

theorem getD_mem {l : List α} {i : Nat} (d : α) (h : i < l.length) :
    l.getD i d ∈ l := by
  rw [List.getD_eq_getElem l d h]
  exact List.getElem_mem h

theorem mask_init_table {grid : Grid} {rel : String} {m : Mask}
    (h : Mask.init grid rel = .ok m) :
    m.bitmasks = ⟨S18A_BITMASKS, 32⟩ ∨ m.bitmasks = ⟨PDR1_BITMASKS, 16⟩ := by
  unfold Mask.init at h
  cases hbm : BitMasks.init rel with
  | error e => rw [hbm] at h; exact Except.noConfusion h
  | ok bm =>
    rw [hbm] at h
    have hm : (⟨rel, bm, grid.map (fun row => row.map (fun x => x % 2 ^ bm.n_bits))⟩ :
        Mask) = m := Except.ok.inj h
    have hmb : m.bitmasks = bm := by rw [← hm]
    unfold BitMasks.init at hbm
    by_cases h1 : rel == "s18a"
    · simp [h1] at hbm
      left; rw [hmb, ← hbm]
    · by_cases h2 : rel == "pdr1"
      · simp [h1, h2] at hbm
        right; rw [hmb, ← hbm]
      · simp [h1, h2] at hbm

theorem s18a_values : ∀ e ∈ S18A_BITMASKS, e.value = 1 <<< e.bits := by decide

theorem pdr1_values : ∀ e ∈ PDR1_BITMASKS, e.value = 1 <<< e.bits := by decide

/-- C2: for both supported release identifiers (s18a and pdr1) every entry
of the constructed bitmask table has value equal to 1 shifted left by its
bit index, and the value fields of any two distinct entries of one table
have bitwise AND equal to zero (pairwise disjoint). -/
theorem bitmask_tables_one_hot_and_disjoint :
    ∃ bm1 bm2 : BitMasks,
      BitMasks.init "s18a" = .ok bm1 ∧ BitMasks.init "pdr1" = .ok bm2 ∧
      (∀ e ∈ bm1.bitmasks, e.value = 1 <<< e.bits) ∧
      (∀ e ∈ bm2.bitmasks, e.value = 1 <<< e.bits) ∧
      (∀ i, i < bm1.bitmasks.length → ∀ j, j < bm1.bitmasks.length → i ≠ j →
        (bm1.bitmasks.getD i default).value &&& (bm1.bitmasks.getD j default).value = 0) ∧
      (∀ i, i < bm2.bitmasks.length → ∀ j, j < bm2.bitmasks.length → i ≠ j →
        (bm2.bitmasks.getD i default).value &&& (bm2.bitmasks.getD j default).value = 0) := by
  refine ⟨⟨S18A_BITMASKS, 32⟩, ⟨PDR1_BITMASKS, 16⟩, rfl, rfl, ?_, ?_, ?_, ?_⟩ <;> decide

/-- C4: combine on a one-element list equals the non-raw extraction of
that plane, for every mask and every selector, errors included (identity
law; the code returns self.extract(lst[0]) directly on this branch). -/
theorem combine_singleton_eq_extract (m : Mask) (sel : Selector) :
    m.combine (.list [sel]) = m.extract sel false := rfl

/-- C7: combine with a non-list argument fails with the invalid-argument
error (TypeError in the code, InvalidArgumentError in the spec) for every
mask and every selector, including selectors absent from the table; no
extraction or table lookup happens first, otherwise an absent selector
would give the unknown-plane error instead. -/
theorem combine_nonlist_invalid_argument (m : Mask) (sel : Selector) :
    m.combine (.single sel) = .error .invalidArgument := rfl

/-- C8: constructing BitMasks, and hence Mask, with a release identifier
outside the supported set fails with the unsupported-release error
(NotImplementedError in the code, UnsupportedReleaseError in the spec),
with no fallback to a default table. -/
theorem unsupported_release_errors (r : String)
    (h1 : r ≠ "s18a") (h2 : r ≠ "pdr1") :
    BitMasks.init r = .error .unsupportedRelease ∧
    ∀ g : Grid, Mask.init g r = .error .unsupportedRelease := by
  have hb : BitMasks.init r = .error .unsupportedRelease := by
    simp [BitMasks.init, h1, h2]
  refine ⟨hb, fun g => ?_⟩
  unfold Mask.init
  rw [hb]
  rfl

/-- Witness for C8 at the concrete unsupported release pdr2. -/
theorem unsupported_release_errors_witness :
    BitMasks.init "pdr2" = .error .unsupportedRelease ∧
    ∀ g : Grid, Mask.init g "pdr2" = .error .unsupportedRelease :=
  unsupported_release_errors "pdr2" (by decide) (by decide)

/-- C10: Mask construction casts the grid with astype to the release
dtype: every stored pixel is the supplied pixel modulo 2 ^ 16 for pdr1
(uint16) and modulo 2 ^ 32 for s18a (uint32), and construction always
succeeds, so higher input bits are discarded silently, never reported. -/
theorem mask_init_casts_modulo (grid : Grid) :
    (Mask.init grid "pdr1").map Mask.masks =
      .ok (grid.map (fun row => row.map (fun x => x % 2 ^ 16))) ∧
    (Mask.init grid "s18a").map Mask.masks =
      .ok (grid.map (fun row => row.map (fun x => x % 2 ^ 32))) := ⟨rfl, rfl⟩

/-- C9 counterexample: on a concrete mask, combine of the empty list does
not return a grid at all: the empty reduction raises the numpy ufunc
TypeError, refuting the claim that it returns an all-zero grid rather
than an error. -/
theorem combine_empty_list_example :
    (Mask.init [[0, 1, 3, 6]] "s18a").bind
      (fun m => m.combine (.list [])) = .error .ufuncTypeError := rfl

/-- C9 amended: combine on the empty selector list fails for every mask
with the TypeError of np.bitwise_or.reduce on an empty (float64) array,
instead of returning an all-zero grid. -/
theorem combine_empty_list_errors (m : Mask) :
    m.combine (.list []) = .error .ufuncTypeError := rfl

/-- C1: on the grid [[3]] (only planes BAD, bit 0, and SAT, bit 1, set),
clean([BAD]) does not return the grid of the remaining plane: it fails
with numpy AxisError, because clean deletes along axis 2 of the stored
masks array while the constructor stores the 2-D astype result (despite
the masks docstring promising a 3-D decoded array); the value the claim
requires, extract(SAT, raw=True) = [[2]], is computed fine. -/
theorem clean_axis_error_bug :
    (Mask.init [[3]] "s18a").bind
      (fun m => m.clean (.list [Selector.bit 0])) = .error .axisError ∧
    (Mask.init [[3]] "s18a").bind
      (fun m => m.extract (Selector.bit 1) true) = .ok [[2]] := ⟨rfl, rfl⟩

/-- C6: a selector matching no entry of the active table makes get_index
fail with the unknown-plane error (IndexError in the code,
UnknownPlaneError in the spec), and the failure propagates to every query
that resolves the selector: extract in both raw modes and in list form,
combine, clean in both argument forms, and get_color. -/
theorem unknown_plane_propagates (m : Mask) (sel : Selector)
    (h : ∀ e ∈ m.bitmasks.bitmasks, selectorMatches sel e = false) :
    m.bitmasks.get_index sel = .error .unknownPlane ∧
    m.extract sel false = .error .unknownPlane ∧
    m.extract sel true = .error .unknownPlane ∧
    m.extractL [sel] false = .error .unknownPlane ∧
    m.combine (.list [sel]) = .error .unknownPlane ∧
    m.clean (.single sel) = .error .unknownPlane ∧
    m.clean (.list [sel]) = .error .unknownPlane ∧
    m.bitmasks.get_color sel = .error .unknownPlane := by
  have hfind : np_where_first (selectorMatches sel) m.bitmasks.bitmasks = none :=
    np_where_first_eq_none h
  have hg : m.bitmasks.get_index sel = .error .unknownPlane := by
    unfold BitMasks.get_index
    rw [hfind]
  have he1 : m.extract sel false = .error .unknownPlane := by
    unfold Mask.extract
    rw [hg]
    rfl
  have he2 : m.extract sel true = .error .unknownPlane := by
    unfold Mask.extract
    rw [hg]
    rfl
  have heL : m.extractL [sel] false = .error .unknownPlane := by
    simp only [Mask.extractL, mapExcept]
    rw [he1]
    rfl
  have hcl1 : m.clean (.single sel) = .error .unknownPlane := by
    simp only [Mask.clean]
    rw [hg]
    rfl
  have hcl2 : m.clean (.list [sel]) = .error .unknownPlane := by
    simp only [Mask.clean, mapExcept]
    rw [hg]
    rfl
  have hcol : m.bitmasks.get_color sel = .error .unknownPlane := by
    unfold BitMasks.get_color
    rw [hg]
    rfl
  exact ⟨hg, he1, he2, heL, he1, hcl1, hcl2, hcol⟩

/-- Witness for C6: bit 20 is present in no s18a entry, and every query
on a concrete mask fails with the unknown-plane error. -/
theorem unknown_plane_propagates_witness :
    (∀ e ∈ (⟨"s18a", ⟨S18A_BITMASKS, 32⟩, [[1]]⟩ : Mask).bitmasks.bitmasks,
      selectorMatches (.bit 20) e = false) ∧
    ((⟨"s18a", ⟨S18A_BITMASKS, 32⟩, [[1]]⟩ : Mask).bitmasks.get_index (.bit 20) =
        .error .unknownPlane ∧
      (⟨"s18a", ⟨S18A_BITMASKS, 32⟩, [[1]]⟩ : Mask).extract (.bit 20) false =
        .error .unknownPlane ∧
      (⟨"s18a", ⟨S18A_BITMASKS, 32⟩, [[1]]⟩ : Mask).extract (.bit 20) true =
        .error .unknownPlane ∧
      (⟨"s18a", ⟨S18A_BITMASKS, 32⟩, [[1]]⟩ : Mask).extractL [.bit 20] false =
        .error .unknownPlane ∧
      (⟨"s18a", ⟨S18A_BITMASKS, 32⟩, [[1]]⟩ : Mask).combine (.list [.bit 20]) =
        .error .unknownPlane ∧
      (⟨"s18a", ⟨S18A_BITMASKS, 32⟩, [[1]]⟩ : Mask).clean (.single (.bit 20)) =
        .error .unknownPlane ∧
      (⟨"s18a", ⟨S18A_BITMASKS, 32⟩, [[1]]⟩ : Mask).clean (.list [.bit 20]) =
        .error .unknownPlane ∧
      (⟨"s18a", ⟨S18A_BITMASKS, 32⟩, [[1]]⟩ : Mask).bitmasks.get_color (.bit 20) =
        .error .unknownPlane) :=
  ⟨by decide, unknown_plane_propagates ⟨"s18a", ⟨S18A_BITMASKS, 32⟩, [[1]]⟩ (.bit 20)
    (by decide)⟩

/-- C5: combine on a two-element list equals the elementwise (bitwise,
hence on these 0/1 grids boolean) or of the two non-raw extractions. -/
theorem combine_pair_or (m : Mask) (p1 p2 : Selector) (g1 g2 : Grid)
    (h1 : m.extract p1 false = .ok g1) (h2 : m.extract p2 false = .ok g2) :
    m.combine (.list [p1, p2]) = .ok (grid_or g1 g2) := by
  unfold Mask.combine
  simp only [mapExcept]
  rw [h1, h2]
  rfl

/-- Witness for C5 on the concrete scenario of the spec: grid
[0, 1, 3, 6] with planes BAD (bit 0) and SAT (bit 1) combines to
[0, 1, 1, 1]. -/
theorem combine_pair_or_witness :
    (⟨"s18a", ⟨S18A_BITMASKS, 32⟩, [[0, 1, 3, 6]]⟩ : Mask).combine
        (.list [.name "BAD", .name "SAT"]) = .ok [[0, 1, 1, 1]] :=
  combine_pair_or ⟨"s18a", ⟨S18A_BITMASKS, 32⟩, [[0, 1, 3, 6]]⟩
    (.name "BAD") (.name "SAT") [[0, 1, 1, 0]] [[0, 0, 1, 1]] rfl rfl

/-- C3: for a mask built from any grid under any release that constructs,
and a selector resolving to index idx in the table, every pixel of the
non-raw extraction is 0 or 1, and every pixel of the raw extraction is 0
or exactly the value of the selected plane, which is 1 shifted left by
its bit index. -/
theorem extract_range (grid : Grid) (rel : String) (m : Mask) (sel : Selector)
    (idx : Nat) (gb graw : Grid)
    (hm : Mask.init grid rel = .ok m)
    (hidx : m.bitmasks.get_index sel = .ok idx)
    (hb : m.extract sel false = .ok gb)
    (hr : m.extract sel true = .ok graw) :
    (∀ row ∈ gb, ∀ x ∈ row, x = 0 ∨ x = 1) ∧
    (∀ row ∈ graw, ∀ x ∈ row, x = 0 ∨ x = (m.library.getD idx default).value) ∧
    (m.library.getD idx default).value = 1 <<< (m.library.getD idx default).bits := by
  have hfind : np_where_first (selectorMatches sel) m.bitmasks.bitmasks = some idx := by
    unfold BitMasks.get_index at hidx
    cases hq : np_where_first (selectorMatches sel) m.bitmasks.bitmasks with
    | none => rw [hq] at hidx; exact Except.noConfusion hidx
    | some j =>
      rw [hq] at hidx
      simp at hidx
      subst hidx
      rfl
  have hlt : idx < m.bitmasks.bitmasks.length := np_where_first_lt hfind
  have hmem : m.bitmasks.bitmasks.getD idx default ∈ m.bitmasks.bitmasks :=
    getD_mem default hlt
  have hval : (m.bitmasks.bitmasks.getD idx default).value =
      1 <<< (m.bitmasks.bitmasks.getD idx default).bits := by
    rcases mask_init_table hm with htab | htab
    · have hts : m.bitmasks.bitmasks = S18A_BITMASKS := by rw [htab]
      rw [hts] at hmem ⊢
      exact s18a_values _ hmem
    · have hts : m.bitmasks.bitmasks = PDR1_BITMASKS := by rw [htab]
      rw [hts] at hmem ⊢
      exact pdr1_values _ hmem
  have hbe : m.masks.map (fun row => row.map
      (fun x => if x &&& (m.library.getD idx default).value > 0 then 1 else 0)) = gb := by
    unfold Mask.extract at hb
    rw [hidx] at hb
    exact Except.ok.inj hb
  have hre : m.masks.map (fun row => row.map
      (fun x => x &&& (m.library.getD idx default).value)) = graw := by
    unfold Mask.extract at hr
    rw [hidx] at hr
    exact Except.ok.inj hr
  refine ⟨?_, ?_, hval⟩
  · intro row hrow x hx
    rw [← hbe] at hrow
    rcases List.mem_map.mp hrow with ⟨r, _, rfl⟩
    rcases List.mem_map.mp hx with ⟨y, _, rfl⟩
    by_cases hc : y &&& (m.library.getD idx default).value > 0
    · right; rw [if_pos hc]
    · left; rw [if_neg hc]
  · intro row hrow x hx
    rw [← hre] at hrow
    rcases List.mem_map.mp hrow with ⟨r, _, rfl⟩
    rcases List.mem_map.mp hx with ⟨y, _, rfl⟩
    have hv2 : (m.library.getD idx default).value =
        2 ^ (m.library.getD idx default).bits := by
      unfold Mask.library
      rw [hval, Nat.shiftLeft_eq, one_mul]
    rw [hv2, Nat.and_two_pow]
    cases hT : y.testBit (m.library.getD idx default).bits
    · left; simp
    · right; simp

/-- Witness for C3 on the spec scenario: plane BAD of an s18a mask over
the grid [0, 1, 3, 6]; both extractions give [0, 1, 1, 0] here and plane
BAD has value 1 = 1 <<< 0. -/
theorem extract_range_witness :
    (∀ row ∈ ([[0, 1, 1, 0]] : Grid), ∀ x ∈ row, x = 0 ∨ x = 1) ∧
    (∀ row ∈ ([[0, 1, 1, 0]] : Grid), ∀ x ∈ row,
      x = 0 ∨ x = (((⟨"s18a", ⟨S18A_BITMASKS, 32⟩, [[0, 1, 3, 6]]⟩ :
        Mask).library).getD 0 default).value) ∧
    (((⟨"s18a", ⟨S18A_BITMASKS, 32⟩, [[0, 1, 3, 6]]⟩ :
        Mask).library).getD 0 default).value =
      1 <<< (((⟨"s18a", ⟨S18A_BITMASKS, 32⟩, [[0, 1, 3, 6]]⟩ :
        Mask).library).getD 0 default).bits :=
  extract_range [[0, 1, 3, 6]] "s18a"
    ⟨"s18a", ⟨S18A_BITMASKS, 32⟩, [[0, 1, 3, 6]]⟩ (.name "BAD")
    0 [[0, 1, 1, 0]] [[0, 1, 1, 0]] rfl rfl rfl rfl
